import Mathlib

/-!
Verification development for the news-aggregation service (`news.py`).

The Python class `NewsAggregator` exposes five provider adapters
(`get_newsapi_news`, `get_guardian_news`, `get_bbc_news`, `get_reuters_news`,
`get_newsdata_news`) and the facade `get_latest_news`, which fans out to four
of the adapters, groups the non-empty results by source label, applies a
two-pass quota merge, sorts globally by `published_at` descending and
truncates to the clamped limit.

The embedding below is shallow: network I/O is replaced by an environment
value (`NetEnv`) holding, for each provider, either the parsed response body
(`Except.ok`) or an exception raised anywhere in the fetch/parse path
(`Except.error`).  All timestamps are strings and are compared exactly as
Python compares `str` (lexicographically by code point), which is what
`sorted(..., key=lambda x: x["published_at"], reverse=True)` does.  Python's
sort is stable; a stable insertion sort with the matching descending
predicate computes the identical permutation.  A `ZeroDivisionError` that
escapes `get_latest_news` is modelled by the `Option.none` result.
-/

set_option linter.unusedVariables false

/-- Canonical article shape produced by every adapter: the four-field dict
built in each Python list comprehension. -/
structure Article where
  title : String
  url : String
  source : String
  published_at : String
deriving DecidableEq, Repr

/-- Raw NewsAPI article as used in `get_newsapi_news`: fields `title`, `url`,
`source.name` and `publishedAt` of each element of `results["articles"]`. -/
structure RawNewsApiArticle where
  title : String
  url : String
  source_name : String
  publishedAt : String
deriving DecidableEq, Repr

/-- Raw Guardian article as used in `get_guardian_news`: fields `webTitle`,
`webUrl`, `webPublicationDate` of each element of `response.results`. -/
structure RawGuardianArticle where
  webTitle : String
  webUrl : String
  webPublicationDate : String
deriving DecidableEq, Repr

/-- Raw RSS feed entry as used in `get_bbc_news`: fields `title`, `link`,
`published` of each parsed feed entry. -/
structure FeedEntry where
  title : String
  link : String
  published : String
deriving DecidableEq, Repr

/-- Raw Reuters article as used in `get_reuters_news`: fields `title`, `url`,
`published_at` of each element of `data["results"]`. -/
structure RawReutersArticle where
  title : String
  url : String
  published_at : String
deriving DecidableEq, Repr

/-- Raw NewsData.io article as used in `get_newsdata_news`: fields `title`,
`link`, optional `source_id` (the code calls `article.get('source_id',
'Unknown')`) and `pubDate`. -/
structure RawNewsDataArticle where
  title : String
  link : String
  source_id : Option String
  pubDate : String
deriving DecidableEq, Repr

/-- NewsData.io response envelope: `response["status"]` and
`response.get("results", [])`. -/
structure NewsDataResponse where
  status : String
  results : List RawNewsDataArticle
deriving DecidableEq, Repr

/-- Outcome of one provider's whole fetch-and-parse path: either the parsed
body, or the exception text of whatever was raised along the way (transport,
JSON decoding, missing key, provider protocol error, ...). -/
abbrev FetchOutcome (α : Type) : Type := Except String α

/-- Network environment of a single `get_latest_news` request: one fetch
outcome per provider.  The BBC outcome carries one entry list per configured
feed URL (`self.bbc_feeds` holds three URLs in `__init__`). -/
structure NetEnv where
  newsapi : FetchOutcome (List RawNewsApiArticle)
  guardian : FetchOutcome (List RawGuardianArticle)
  bbc : FetchOutcome (List (List FeedEntry))
  reuters : FetchOutcome (List RawReutersArticle)
  newsdata : FetchOutcome NewsDataResponse

/-- Constructor state of the Python `NewsAggregator` class: the four
credential strings taken by `__init__`. -/
structure NewsAggregator where
  newsapi_key : String
  guardian_key : String
  reuters_key : String
  newsdata_key : String
deriving DecidableEq, Repr

/-- Dict built by the comprehension in `get_newsapi_news` for one raw
article; the source label is the f-string `"NewsAPI - {article.source.name}"`. -/
def formatNewsApiArticle (article : RawNewsApiArticle) : Article :=
  { title := article.title
    url := article.url
    source := "NewsAPI - " ++ article.source_name
    published_at := article.publishedAt }

/-- Embeds `NewsAggregator.get_newsapi_news` (news.py lines 24-46).  The
`limit` argument is only sent to the provider as `page_size`; the adapter
itself formats every article of the response, however many there are. -/
def get_newsapi_news (fetched : FetchOutcome (List RawNewsApiArticle)) (limit : Nat) :
    List Article :=
  match fetched with
  | .ok articles => articles.map formatNewsApiArticle
  | .error _ => []

/-- Dict built by the comprehension in `get_guardian_news` for one raw
article; the source label is the constant `"The Guardian"`. -/
def formatGuardianArticle (article : RawGuardianArticle) : Article :=
  { title := article.webTitle
    url := article.webUrl
    source := "The Guardian"
    published_at := article.webPublicationDate }

/-- Embeds `NewsAggregator.get_guardian_news` (news.py lines 48-75).  The
`limit` argument only becomes the `page-size` request parameter. -/
def get_guardian_news (fetched : FetchOutcome (List RawGuardianArticle)) (limit : Nat) :
    List Article :=
  match fetched with
  | .ok articles => articles.map formatGuardianArticle
  | .error _ => []

/-- Dict built in `get_bbc_news` for one feed entry; the source label is the
constant `"BBC News"`. -/
def formatFeedEntry (entry : FeedEntry) : Article :=
  { title := entry.title
    url := entry.link
    source := "BBC News"
    published_at := entry.published }

/-- Embeds `NewsAggregator.get_bbc_news` (news.py lines 77-95): for every
configured feed it takes `feed.entries[:limit]` and extends the accumulator
with the formatted entries.  There is no cross-feed sort and no truncation of
the concatenated list. -/
def get_bbc_news (fetched : FetchOutcome (List (List FeedEntry))) (limit : Nat) :
    List Article :=
  match fetched with
  | .ok feeds =>
      feeds.foldl (fun all_articles feed =>
        all_articles ++ (feed.take limit).map formatFeedEntry) []
  | .error _ => []

/-- Dict built in `get_reuters_news` for one raw article; the source label is
the constant `"Reuters"`. -/
def formatReutersArticle (article : RawReutersArticle) : Article :=
  { title := article.title
    url := article.url
    source := "Reuters"
    published_at := article.published_at }

/-- Embeds `NewsAggregator.get_reuters_news` (news.py lines 97-118): an empty
`reuters_key` short-circuits to `[]` before the request is built (the Python
guard `if not self.reuters_key`); otherwise the response articles are
formatted and any exception yields `[]`. -/
def get_reuters_news (reuters_key : String) (fetched : FetchOutcome (List RawReutersArticle))
    (limit : Nat) : List Article :=
  if reuters_key = "" then []
  else
    match fetched with
    | .ok data => data.map formatReutersArticle
    | .error _ => []

/-- Dict built in `get_newsdata_news` for one raw article; the source label is
the f-string `"NewsData.io - {article.get('source_id', 'Unknown')}"`. -/
def formatNewsDataArticle (article : RawNewsDataArticle) : Article :=
  { title := article.title
    url := article.link
    source := "NewsData.io - " ++ article.source_id.getD "Unknown"
    published_at := article.pubDate }

/-- Embeds `NewsAggregator.get_newsdata_news` (news.py lines 120-145): the
call is attempted whatever `newsdata_key` holds (there is no credential
guard); a response whose `status` differs from `"success"` and any raised
exception both yield `[]`.  The `limit` parameter of the Python method is
never used in its body. -/
def get_newsdata_news (newsdata_key : String) (fetched : FetchOutcome NewsDataResponse)
    (limit : Nat) : List Article :=
  match fetched with
  | .ok response =>
      if response.status = "success" then response.results.map formatNewsDataArticle
      else []
  | .error _ => []

/-- Python dict assignment `d[key] = value` on an insertion-ordered dict
represented as an association list: an existing key keeps its position and
gets the new value, a new key is appended. -/
def dictInsert (d : List (String × List Article)) (key : String) (value : List Article) :
    List (String × List Article) :=
  if d.any (fun p => p.1 = key) then
    d.map (fun p => if p.1 = key then (key, value) else p)
  else d ++ [(key, value)]

/-- Embeds the grouping loop of `get_latest_news` (news.py lines 163-168):
`news_by_source[source_news[0]['source']] = source_news` for every non-empty
per-adapter result, in result order. -/
def buildNewsBySource (results : List (List Article)) : List (String × List Article) :=
  results.foldl (fun news_by_source source_news =>
    match source_news with
    | [] => news_by_source
    | article :: _ => dictInsert news_by_source article.source source_news) []

/-- Output order of the merged list: predecessor's `published_at` is at least
the successor's (Python string comparison, descending). -/
def byDateDesc (a b : Article) : Prop := b.published_at ≤ a.published_at

instance : DecidableRel byDateDesc := fun a b =>
  decidable_of_iff (b.published_at.toList ≤ a.published_at.toList) String.le_iff_toList_le.symm

instance : IsTotal Article byDateDesc :=
  ⟨fun a b => (le_total b.published_at a.published_at).imp id id⟩

instance : IsTrans Article byDateDesc :=
  ⟨fun _ _ _ h1 h2 => le_trans h2 h1⟩

/-- Embeds Python's `sorted(news, key=lambda x: x["published_at"],
reverse=True)`: a stable descending sort on the timestamp string.  Python's
sort is stable, and insertion sort with this reflexive descending predicate
is stable as well, so the two agree as functions. -/
def sortByDateDesc (news : List Article) : List Article :=
  news.insertionSort byDateDesc

/-- Constant `min_per_source = 5` of `get_latest_news` (news.py line 172). -/
def min_per_source : Nat := 5

/-- Embeds the two quota passes of `get_latest_news` (news.py lines 171-189),
producing the pre-truncation accumulator `all_news`.  First pass: for every
source, in dict order, append the five most recent articles
(`sorted_news[:min_per_source]`).  Second pass: if `remaining_slots > 0` and
`additional_per_source = remaining_slots // len(news_by_source) > 0`, append
`sorted_news[min_per_source:min_per_source + additional_per_source]` for
every source.  Nat subtraction agrees with the Python guard because
`remaining_slots > 0` holds in Int exactly when it holds after truncated
subtraction. -/
def mergeAccum (news_by_source : List (String × List Article)) (limit : Nat) : List Article :=
  let all_news := news_by_source.foldl
    (fun acc p => acc ++ (sortByDateDesc p.2).take min_per_source) []
  let remaining_slots := limit - all_news.length
  if 0 < remaining_slots then
    let additional_per_source := remaining_slots / news_by_source.length
    if 0 < additional_per_source then
      news_by_source.foldl
        (fun acc p => acc ++ ((sortByDateDesc p.2).drop min_per_source).take additional_per_source)
        all_news
    else all_news
  else all_news

/-- Clamp of news.py line 149: `limit = max(20, min(limit, 30))`. -/
def clampLimit (limit : Int) : Int := max 20 (min limit 30)

/-- Per-adapter budget of news.py line 152: `(limit // 4) + 5` on the clamped
limit; the value lies in `[10, 12]`, so `toNat` is exact. -/
def perSourceLimit (limit : Int) : Nat := (clampLimit limit / 4 + 5).toNat

/-- Embeds the fan-out of news.py lines 153-160: the four tasks gathered by
`asyncio.gather`, in task order.  `get_reuters_news` is not among them. -/
def fetchResults (agg : NewsAggregator) (env : NetEnv) (n : Nat) : List (List Article) :=
  [get_newsapi_news env.newsapi n,
   get_guardian_news env.guardian n,
   get_bbc_news env.bbc n,
   get_newsdata_news agg.newsdata_key env.newsdata n]

/-- Embeds `NewsAggregator.get_latest_news` (news.py lines 147-199).  With an
empty `news_by_source` dict, Python raises `ZeroDivisionError` at line 173
(`limit // len(news_by_source)` inside the unused `target_per_source`
computation), modelled as `none`.  Otherwise the two-pass accumulator is
sorted by date descending and truncated to the clamped limit. -/
def get_latest_news (agg : NewsAggregator) (env : NetEnv) (limit : Int) :
    Option (List Article) :=
  let news_by_source := buildNewsBySource (fetchResults agg env (perSourceLimit limit))
  if news_by_source.isEmpty then none
  else
    some ((sortByDateDesc (mergeAccum news_by_source (clampLimit limit).toNat)).take
      (clampLimit limit).toNat)

/-- Spec-side statement of the guarantee pass (spec section 4.3 step 1): for
every present source, in mapping order, the up-to-five most recent articles
of its date-descending sorted list, concatenated. -/
def specGuaranteePass (bySource : List (String × List Article)) : List Article :=
  (bySource.map (fun p => (sortByDateDesc p.2).take min_per_source)).flatten

/-- Spec-side statement of the fill pass (spec section 4.3 step 2): with
`remaining = limit - size(accumulator)` and `additionalPerSource =
remaining // numberOfSources`, the slice after the first five entries of each
source's sorted list, up to `additionalPerSource` entries per source; the
whole pass is skipped when `remaining` or `additionalPerSource` is zero. -/
def specFillPass (bySource : List (String × List Article)) (limit : Nat) : List Article :=
  let remaining := limit - (specGuaranteePass bySource).length
  if 0 < remaining then
    let additionalPerSource := remaining / bySource.length
    if 0 < additionalPerSource then
      (bySource.map (fun p =>
        ((sortByDateDesc p.2).drop min_per_source).take additionalPerSource)).flatten
    else []
  else []

/-- Key taken by the grouping loop from one adapter result: the source label
of its first article, when the result is non-empty. -/
def headKey (source_news : List Article) : Option (String × List Article) :=
  match source_news with
  | [] => none
  | article :: _ => some (article.source, source_news)

/-! ## General helper lemmas -/

/-- Accumulating `foldl` with per-element appends equals the flattened map:
the shape shared by both quota passes and by the BBC feed loop. -/
theorem foldl_append_flatten {α β : Type} (g : α → List β) :
    ∀ (l : List α) (init : List β),
      l.foldl (fun acc x => acc ++ g x) init = init ++ (l.map g).flatten
  | [], init => by simp
  | x :: l, init => by
    simp only [List.foldl_cons, List.map_cons, List.flatten_cons]
    rw [foldl_append_flatten g l (init ++ g x), List.append_assoc]

/-- The core merge identity: the accumulator built by the two Python loops is
the guarantee-pass list followed by the fill-pass list, both as the spec
phrases them. -/
theorem mergeAccum_eq_two_pass (m : List (String × List Article)) (limit : Nat) :
    mergeAccum m limit = specGuaranteePass m ++ specFillPass m limit := by
  simp only [mergeAccum, specFillPass]
  rw [foldl_append_flatten (fun p => (sortByDateDesc p.2).take min_per_source) m []]
  simp only [List.nil_append]
  rw [show (m.map fun p => (sortByDateDesc p.2).take min_per_source).flatten
      = specGuaranteePass m from rfl]
  split
  · split
    · rw [foldl_append_flatten
        (fun p => ((sortByDateDesc p.2).drop min_per_source).take
          ((limit - (specGuaranteePass m).length) / m.length)) m (specGuaranteePass m)]
    · simp
  · simp

/-- Inversion of a successful `get_latest_news` call: the returned list is the
truncated global sort of the two-pass accumulator over the grouped fan-out
results. -/
theorem get_latest_news_some_eq {agg : NewsAggregator} {env : NetEnv} {limit : Int}
    {l : List Article} (h : get_latest_news agg env limit = some l) :
    l = (sortByDateDesc (mergeAccum
          (buildNewsBySource (fetchResults agg env (perSourceLimit limit)))
          (clampLimit limit).toNat)).take (clampLimit limit).toNat := by
  simp only [get_latest_news] at h
  split at h
  · simp at h
  · exact (Option.some.inj h).symm

/-! ## Concrete inputs used by scenario conjuncts, witnesses and counterexamples -/

/-- Scenario article number `i` of source `src`: timestamps decrease strictly
as `i` grows (two-digit decimal strings compare like the numbers they show),
so article `i` plays the role of the spec's instant `T_i`. -/
def scenarioArticle (src : String) (i : Nat) : Article :=
  { title := "t" ++ toString i
    url := "u" ++ toString i
    source := src
    published_at := toString (90 - i) }

/-- Scenario source A: ten articles holding instants `T0 > ... > T9`. -/
def scenarioA : List Article := (List.range 10).map (scenarioArticle "A")

/-- Scenario source B: three articles holding instants `T10 > T11 > T12`. -/
def scenarioB : List Article := (List.range 3).map (fun i => scenarioArticle "B" (10 + i))

/-- Scenario source C: twenty articles holding instants `T13 > ... > T32`. -/
def scenarioC : List Article := (List.range 20).map (fun i => scenarioArticle "C" (13 + i))

/-- Per-source mapping of the spec's concrete scenario: three sources with
10, 3 and 20 articles. -/
def scenarioMapping : List (String × List Article) :=
  [("A", scenarioA), ("B", scenarioB), ("C", scenarioC)]

/-- Hand-computed pre-truncation accumulator of the scenario: guarantee pass
`A:T0..T4, B:T10..T12, C:T13..T17`, then fill pass `A:T5,T6` and
`C:T18,T19`. -/
def scenarioExpected : List Article :=
  (List.range 5).map (scenarioArticle "A")
    ++ scenarioB
    ++ (List.range 5).map (fun i => scenarioArticle "C" (13 + i))
    ++ (List.range 2).map (fun i => scenarioArticle "A" (5 + i))
    ++ (List.range 2).map (fun i => scenarioArticle "C" (18 + i))

/-- Aggregator constructed with no credentials, as `main.py` does for the
Reuters slot (`NewsAggregator(settings.newsapi_key, settings.guardian_key,
"")`). -/
def aggregator0 : NewsAggregator :=
  { newsapi_key := "", guardian_key := "", reuters_key := "", newsdata_key := "" }

/-- Environment in which all four fetched providers succeed with zero
articles. -/
def envAllEmpty : NetEnv :=
  { newsapi := .ok []
    guardian := .ok []
    bbc := .ok []
    reuters := .ok []
    newsdata := .ok { status := "success", results := [] } }

/-- The single Guardian article used by several witnesses. -/
def guardianRawOne : RawGuardianArticle :=
  { webTitle := "g", webUrl := "gu", webPublicationDate := "2024" }

/-- Formatted shape of `guardianRawOne`. -/
def guardianArticleOne : Article := formatGuardianArticle guardianRawOne

/-- Environment in which only the Guardian returns data: one article. -/
def envOneGuardian : NetEnv :=
  { newsapi := .error "connection refused"
    guardian := .ok [guardianRawOne]
    bbc := .error "connection refused"
    reuters := .ok []
    newsdata := .error "connection refused" }

/-- Environment in which only the Guardian returns data: twenty articles with
distinct descending timestamps. -/
def envTwentyGuardian : NetEnv :=
  { newsapi := .error "connection refused"
    guardian := .ok ((List.range 20).map fun i =>
      { webTitle := "t" ++ toString i, webUrl := "u" ++ toString i
        webPublicationDate := toString (50 - i) })
    bbc := .error "connection refused"
    reuters := .ok []
    newsdata := .error "connection refused" }

/-! ## C1: the merge follows the two-pass quota policy -/

/-- C1.  Inside `get_latest_news`, for every non-empty per-source mapping and
every limit, the pre-truncation accumulator is exactly the guarantee pass
followed by the fill pass as the spec states them; and in the concrete
scenario of sources with 10, 3 and 20 articles at limit 20, the guarantee
pass takes 5+3+5 = 13 articles, the fill pass computes `7 // 3 = 2` and takes
2+0+2 more, so the accumulator is the hand-computed 17-article list. -/
theorem merge_follows_two_pass_quota_policy :
    (∀ m : List (String × List Article), m ≠ [] → ∀ limit : Nat,
      mergeAccum m limit = specGuaranteePass m ++ specFillPass m limit)
    ∧ (specGuaranteePass scenarioMapping).length = 13
    ∧ (20 - (specGuaranteePass scenarioMapping).length) / scenarioMapping.length = 2
    ∧ mergeAccum scenarioMapping 20 = scenarioExpected
    ∧ scenarioExpected.length = 17 :=
  ⟨fun m _ limit => mergeAccum_eq_two_pass m limit, by decide, by decide, by decide, by decide⟩

/-- Witness for C1 at the concrete scenario mapping. -/
theorem merge_follows_two_pass_quota_policy_witness :
    mergeAccum scenarioMapping 20 =
      specGuaranteePass scenarioMapping ++ specFillPass scenarioMapping 20 :=
  merge_follows_two_pass_quota_policy.1 scenarioMapping (by decide) 20

/-! ## C2: zero present sources -/

/-- C2 (code bug).  When every adapter returns an empty list, `get_latest_news`
does not return an empty sequence: `len(news_by_source)` is zero, and the
expression `limit // len(news_by_source)` at news.py line 173 raises
`ZeroDivisionError`, modelled here as `none`, for every aggregator and every
limit. -/
theorem empty_sources_raise_division_error :
    ∀ (agg : NewsAggregator) (limit : Int), get_latest_news agg envAllEmpty limit = none :=
  fun _ _ => rfl

/-! ## C3: output sorted by date descending -/

/-- C3.  Every list returned by `get_latest_news` is sorted by `published_at`
descending: each article's timestamp is at least every later article's, for
every aggregator, environment and limit. -/
theorem output_sorted_by_published_at_desc :
    ∀ (agg : NewsAggregator) (env : NetEnv) (limit : Int) (l : List Article),
      get_latest_news agg env limit = some l → l.Sorted byDateDesc := by
  intro agg env limit l h
  rw [get_latest_news_some_eq h]
  exact List.Pairwise.sublist (List.take_sublist _ _) (List.sorted_insertionSort byDateDesc _)

/-- Witness for C3: a request in which only the Guardian answers, with one
article. -/
theorem output_sorted_by_published_at_desc_witness :
    get_latest_news aggregator0 envOneGuardian 20 = some [guardianArticleOne]
    ∧ List.Sorted byDateDesc [guardianArticleOne] :=
  ⟨by decide,
   output_sorted_by_published_at_desc aggregator0 envOneGuardian 20 [guardianArticleOne]
     (by decide)⟩

/-! ## C4: output length versus the requested limit -/

/-- C4 counterexample.  With `limit = 10` and a Guardian response of twenty
articles, `get_latest_news` returns twenty articles: the clamp
`max(20, min(limit, 30))` lifts the request to 20, so the returned length
exceeds the integer the caller passed. -/
theorem length_exceeds_requested_limit_cex :
    ((get_latest_news aggregator0 envTwentyGuardian 10).getD []).length = 20
    ∧ ¬(((get_latest_news aggregator0 envTwentyGuardian 10).getD []).length ≤ 10) := by
  decide

/-- C4 amended.  The returned length is bounded by the clamped limit
`max(20, min(limit, 30))`; in particular it is bounded by the caller's limit
whenever that limit is at least 20. -/
theorem length_le_clamped_limit :
    ∀ (agg : NewsAggregator) (env : NetEnv) (limit : Int) (l : List Article),
      get_latest_news agg env limit = some l →
      l.length ≤ (clampLimit limit).toNat ∧ (20 ≤ limit → (l.length : Int) ≤ limit) := by
  intro agg env limit l h
  have h1 : l.length ≤ (clampLimit limit).toNat := by
    rw [get_latest_news_some_eq h]
    exact List.length_take_le _ _
  refine ⟨h1, fun h20 => ?_⟩
  simp only [clampLimit] at h1 ⊢
  omega

/-- Witness for C4 at `limit = 25` with a single Guardian article. -/
theorem length_le_clamped_limit_witness :
    [guardianArticleOne].length ≤ (clampLimit 25).toNat
    ∧ (20 ≤ (25 : Int) → (([guardianArticleOne].length : Nat) : Int) ≤ 25) :=
  length_le_clamped_limit aggregator0 envOneGuardian 25 [guardianArticleOne] (by decide)

/-! ## C5: shape of the BBC feed adapter -/

/-- The BBC loop written as one expression: per-feed truncation to `limit`,
formatting, and concatenation in configured feed order. -/
theorem bbc_eq_flatten (feeds : List (List FeedEntry)) (n : Nat) :
    get_bbc_news (.ok feeds) n
      = (feeds.map (fun feed => (feed.take n).map formatFeedEntry)).flatten := by
  simp only [get_bbc_news]
  rw [foldl_append_flatten (fun feed => (feed.take n).map formatFeedEntry) feeds []]
  simp

/-- Each feed contributes at most `n` entries, so the concatenation holds at
most `numberOfFeeds * n` articles. -/
theorem bbc_length_le (feeds : List (List FeedEntry)) (n : Nat) :
    (get_bbc_news (.ok feeds) n).length ≤ feeds.length * n := by
  rw [bbc_eq_flatten, List.length_flatten]
  have hb : ∀ x ∈ (feeds.map (fun feed => (feed.take n).map formatFeedEntry)).map List.length,
      x ≤ n := by
    intro x hx
    rcases List.mem_map.1 hx with ⟨l, hl, rfl⟩
    rcases List.mem_map.1 hl with ⟨f, hf, rfl⟩
    simp
  calc ((feeds.map (fun feed => (feed.take n).map formatFeedEntry)).map List.length).sum
      ≤ ((feeds.map (fun feed => (feed.take n).map formatFeedEntry)).map List.length).length • n :=
        List.sum_le_card_nsmul _ n hb
    _ = feeds.length * n := by simp [smul_eq_mul]

/-- Three one-entry feeds, newest first across feeds reversed, to exercise the
BBC adapter at bound 1. -/
def cexFeeds : List (List FeedEntry) :=
  [[{ title := "e1", link := "l1", published := "30" }],
   [{ title := "e2", link := "l2", published := "20" }],
   [{ title := "e3", link := "l3", published := "10" }]]

/-- C5 counterexample.  With three configured feeds of one entry each and
requested bound 1, `get_bbc_news` returns three articles: the concatenation
is neither sorted globally nor truncated to the bound, so its length exceeds
the requested bound. -/
theorem bbc_exceeds_requested_bound_cex :
    (get_bbc_news (.ok cexFeeds) 1).length = 3
    ∧ ¬((get_bbc_news (.ok cexFeeds) 1).length ≤ 1) := by
  decide

/-- C5 amended.  `get_bbc_news` takes the first `bound` entries of every feed,
formats them and concatenates in feed order — with no cross-feed sort and no
global truncation — so its length is bounded by `numberOfFeeds * bound`
(3 * bound for the three configured BBC feeds), not by `bound`. -/
theorem bbc_concatenates_per_feed_truncations :
    (∀ (feeds : List (List FeedEntry)) (n : Nat),
      get_bbc_news (.ok feeds) n
        = (feeds.map (fun feed => (feed.take n).map formatFeedEntry)).flatten)
    ∧ (∀ (feeds : List (List FeedEntry)) (n : Nat),
      (get_bbc_news (.ok feeds) n).length ≤ feeds.length * n) :=
  ⟨bbc_eq_flatten, bbc_length_le⟩

/-! ## C6: adapters never propagate errors -/

/-- C6.  Every adapter converts any error of the fetch/parse path into the
empty list: each of the five adapters maps an exception outcome to `[]`, and
the NewsData adapter also maps a non-success provider response to `[]`. -/
theorem adapters_convert_errors_to_empty :
    ∀ (e : String) (key : String) (n : Nat),
      get_newsapi_news (.error e) n = []
      ∧ get_guardian_news (.error e) n = []
      ∧ get_bbc_news (.error e) n = []
      ∧ get_reuters_news key (.error e) n = []
      ∧ get_newsdata_news key (.error e) n = []
      ∧ (∀ resp : NewsDataResponse, resp.status ≠ "success" →
          get_newsdata_news key (.ok resp) n = []) := by
  intro e key n
  refine ⟨rfl, rfl, rfl, ?_, rfl, ?_⟩
  · simp only [get_reuters_news]
    split
    · rfl
    · rfl
  · intro resp hs
    simp only [get_newsdata_news]
    rw [if_neg hs]

/-- Witness for C6: a NewsData response with a non-success status yields the
empty list. -/
theorem adapters_convert_errors_to_empty_witness :
    get_newsdata_news "k" (.ok { status := "error", results := [] }) 7 = [] :=
  (adapters_convert_errors_to_empty "boom" "k" 7).2.2.2.2.2
    { status := "error", results := [] } (by decide)

/-! ## C7: behaviour with an absent credential -/

/-- A successful NewsData response carrying one article. -/
def cexNewsDataResponse : NewsDataResponse :=
  { status := "success"
    results := [{ title := "t", link := "l", source_id := some "x", pubDate := "2024" }] }

/-- C7 counterexample.  `get_newsdata_news` has no credential guard: with an
empty `newsdata_key` it still performs the call, and a success response makes
it return a non-empty list — its result is not the empty list independently
of the network response. -/
theorem newsdata_fetches_without_credential_cex :
    get_newsdata_news "" (.ok cexNewsDataResponse) 5 ≠ [] := by
  decide

/-- C7 amended.  Only `get_reuters_news` short-circuits on an absent
credential: with `reuters_key = ""` it returns the empty list whatever the
network outcome would have been, for every requested bound. -/
theorem reuters_short_circuits_without_credential :
    ∀ (fetched : FetchOutcome (List RawReutersArticle)) (n : Nat),
      get_reuters_news "" fetched n = [] :=
  fun _ _ => rfl

/-! ## C8: adapter result lengths versus the requested bound -/

/-- Three NewsAPI articles in a provider response. -/
def cexNewsApiRaws : List RawNewsApiArticle :=
  [{ title := "a", url := "u", source_name := "s", publishedAt := "30" },
   { title := "b", url := "u", source_name := "s", publishedAt := "20" },
   { title := "c", url := "u", source_name := "s", publishedAt := "10" }]

/-- C8 counterexample.  At requested bound 1, a NewsAPI response of three
articles is returned whole: three articles exceed `2 * 1`, the documented
over-fetch multiple. -/
theorem adapter_exceeds_twice_bound_cex :
    (get_newsapi_news (.ok cexNewsApiRaws) 1).length = 3
    ∧ ¬((get_newsapi_news (.ok cexNewsApiRaws) 1).length ≤ 2 * 1) := by
  decide

/-- C8 amended.  Only the BBC adapter's length is bounded by a multiple of the
requested bound (`numberOfFeeds * bound`); the API-style adapters return
exactly as many articles as the provider response carries, a quantity the
code does not bound in terms of the requested bound at all. -/
theorem adapter_result_length_bounds :
    (∀ (feeds : List (List FeedEntry)) (n : Nat),
      (get_bbc_news (.ok feeds) n).length ≤ feeds.length * n)
    ∧ (∀ (raws : List RawNewsApiArticle) (n : Nat),
      (get_newsapi_news (.ok raws) n).length = raws.length)
    ∧ (∀ (raws : List RawGuardianArticle) (n : Nat),
      (get_guardian_news (.ok raws) n).length = raws.length)
    ∧ (∀ (resp : NewsDataResponse) (key : String) (n : Nat), resp.status = "success" →
      (get_newsdata_news key (.ok resp) n).length = resp.results.length) := by
  refine ⟨bbc_length_le, ?_, ?_, ?_⟩
  · intro raws n
    simp [get_newsapi_news]
  · intro raws n
    simp [get_guardian_news]
  · intro resp key n hs
    simp [get_newsdata_news, hs]

/-- Witness for C8 at a concrete success response. -/
theorem adapter_result_length_bounds_witness :
    (get_newsdata_news "" (.ok cexNewsDataResponse) 5).length
      = cexNewsDataResponse.results.length :=
  adapter_result_length_bounds.2.2.2 cexNewsDataResponse "" 5 (by decide)

/-! ## Source-label facts -/

/-- Strings whose first five characters differ are different. -/
theorem ne_of_data_take5 {a b : String} (h : a.data.take 5 ≠ b.data.take 5) : a ≠ b :=
  fun e => h (by rw [e])

/-- Appending to a string of at least five characters keeps its first five
characters. -/
theorem data_take5_append (p s : String) (hp : 5 ≤ p.data.length) :
    (p ++ s).data.take 5 = p.data.take 5 := by
  rw [String.data_append]
  exact List.take_append_of_le_length hp

/-- NewsAPI labels never collide with the Guardian label. -/
theorem newsapi_label_ne_guardian (s : String) : "NewsAPI - " ++ s ≠ "The Guardian" := by
  apply ne_of_data_take5
  rw [data_take5_append _ _ (by decide)]
  decide

/-- NewsAPI labels never collide with the BBC label. -/
theorem newsapi_label_ne_bbc (s : String) : "NewsAPI - " ++ s ≠ "BBC News" := by
  apply ne_of_data_take5
  rw [data_take5_append _ _ (by decide)]
  decide

/-- NewsAPI labels never collide with NewsData.io labels. -/
theorem newsapi_label_ne_newsdata (s t : String) :
    "NewsAPI - " ++ s ≠ "NewsData.io - " ++ t := by
  apply ne_of_data_take5
  rw [data_take5_append _ _ (by decide), data_take5_append _ _ (by decide)]
  decide

/-- NewsData.io labels never collide with the Guardian label. -/
theorem newsdata_label_ne_guardian (t : String) : "NewsData.io - " ++ t ≠ "The Guardian" := by
  apply ne_of_data_take5
  rw [data_take5_append _ _ (by decide)]
  decide

/-- NewsData.io labels never collide with the BBC label. -/
theorem newsdata_label_ne_bbc (t : String) : "NewsData.io - " ++ t ≠ "BBC News" := by
  apply ne_of_data_take5
  rw [data_take5_append _ _ (by decide)]
  decide

/-- NewsAPI labels are never the Reuters label. -/
theorem newsapi_label_ne_reuters (s : String) : "NewsAPI - " ++ s ≠ "Reuters" := by
  apply ne_of_data_take5
  rw [data_take5_append _ _ (by decide)]
  decide

/-- NewsData.io labels are never the Reuters label. -/
theorem newsdata_label_ne_reuters (t : String) : "NewsData.io - " ++ t ≠ "Reuters" := by
  apply ne_of_data_take5
  rw [data_take5_append _ _ (by decide)]
  decide

/-- Every article of a NewsAPI result carries a `"NewsAPI - "`-prefixed
source label. -/
theorem source_of_mem_newsapi {a : Article} {f : FetchOutcome (List RawNewsApiArticle)}
    {n : Nat} (h : a ∈ get_newsapi_news f n) : ∃ s, a.source = "NewsAPI - " ++ s := by
  match f with
  | .error e => simp [get_newsapi_news] at h
  | .ok raws =>
    simp only [get_newsapi_news] at h
    rcases List.mem_map.1 h with ⟨r, hr, rfl⟩
    exact ⟨r.source_name, rfl⟩

/-- Every article of a Guardian result carries the label `"The Guardian"`. -/
theorem source_of_mem_guardian {a : Article} {f : FetchOutcome (List RawGuardianArticle)}
    {n : Nat} (h : a ∈ get_guardian_news f n) : a.source = "The Guardian" := by
  match f with
  | .error e => simp [get_guardian_news] at h
  | .ok raws =>
    simp only [get_guardian_news] at h
    rcases List.mem_map.1 h with ⟨r, hr, rfl⟩
    rfl

/-- Every article of a BBC result carries the label `"BBC News"`. -/
theorem source_of_mem_bbc {a : Article} {f : FetchOutcome (List (List FeedEntry))}
    {n : Nat} (h : a ∈ get_bbc_news f n) : a.source = "BBC News" := by
  match f with
  | .error e => simp [get_bbc_news] at h
  | .ok feeds =>
    rw [bbc_eq_flatten] at h
    rcases List.mem_flatten.1 h with ⟨l, hl, hal⟩
    rcases List.mem_map.1 hl with ⟨feed, hf, rfl⟩
    rcases List.mem_map.1 hal with ⟨entry, he, rfl⟩
    rfl

/-- Every article of a NewsData result carries a `"NewsData.io - "`-prefixed
source label. -/
theorem source_of_mem_newsdata {a : Article} {key : String}
    {f : FetchOutcome NewsDataResponse} {n : Nat} (h : a ∈ get_newsdata_news key f n) :
    ∃ s, a.source = "NewsData.io - " ++ s := by
  match f with
  | .error e => simp [get_newsdata_news] at h
  | .ok resp =>
    simp only [get_newsdata_news] at h
    by_cases hs : resp.status = "success"
    · rw [if_pos hs] at h
      rcases List.mem_map.1 h with ⟨r, hr, rfl⟩
      exact ⟨r.source_id.getD "Unknown", rfl⟩
    · rw [if_neg hs] at h
      simp at h

/-! ## Dict and grouping lemmas -/

/-- Inserting a key not present in the dict appends the new entry. -/
theorem dictInsert_new_key (d : List (String × List Article)) (key : String)
    (value : List Article) (h : ∀ p ∈ d, p.1 ≠ key) :
    dictInsert d key value = d ++ [(key, value)] := by
  have hfalse : (d.any fun p => p.1 = key) = false := by
    simp only [List.any_eq_false, decide_eq_true_eq]
    exact h
  simp [dictInsert, hfalse]

/-- Every entry of `dictInsert d key value` is an entry of `d` or the new
entry. -/
theorem mem_dictInsert {p : String × List Article} {d : List (String × List Article)}
    {key : String} {value : List Article} (h : p ∈ dictInsert d key value) :
    p ∈ d ∨ p = (key, value) := by
  simp only [dictInsert] at h
  split at h
  · rcases List.mem_map.1 h with ⟨q, hq, hpq⟩
    by_cases hk : q.1 = key
    · right
      rw [← hpq]
      simp [hk]
    · left
      rw [← hpq]
      simp only [if_neg hk]
      exact hq
  · rcases List.mem_append.1 h with h | h
    · left; exact h
    · right; simpa using h

/-- The grouping fold, started from any dict whose keys avoid the incoming
head labels: with pairwise-distinct head labels it appends one entry per
non-empty result. -/
theorem buildNewsBySource_go (results : List (List Article)) :
    ∀ d : List (String × List Article),
      (∀ p ∈ d, ∀ q ∈ results.filterMap headKey, p.1 ≠ q.1) →
      (results.filterMap headKey).Pairwise (fun p q => p.1 ≠ q.1) →
      results.foldl (fun news_by_source source_news =>
        match source_news with
        | [] => news_by_source
        | article :: _ => dictInsert news_by_source article.source source_news) d
      = d ++ results.filterMap headKey := by
  induction results with
  | nil =>
    intro d _ _
    simp
  | cons l ls ih =>
    intro d hd hpw
    cases l with
    | nil =>
      have hnone : headKey ([] : List Article) = none := rfl
      rw [List.filterMap_cons_none hnone] at hd hpw ⊢
      simp only [List.foldl_cons]
      exact ih d hd hpw
    | cons article rest =>
      have hsome : headKey (article :: rest) = some (article.source, article :: rest) := rfl
      rw [List.filterMap_cons_some hsome] at hd hpw ⊢
      simp only [List.foldl_cons]
      have hnew : ∀ p ∈ d, p.1 ≠ article.source := by
        intro p hp
        exact hd p hp (article.source, article :: rest) (List.mem_cons_self _ _)
      rw [dictInsert_new_key d article.source (article :: rest) hnew,
        ih (d ++ [(article.source, article :: rest)]) ?_ (List.pairwise_cons.1 hpw).2,
        List.append_assoc]
      · rfl
      · intro p hp q hq
        rcases List.mem_append.1 hp with hp | hp
        · exact hd p hp q (List.mem_cons_of_mem _ hq)
        · have hpe : p = (article.source, article :: rest) := by simpa using hp
          rw [hpe]
          exact (List.pairwise_cons.1 hpw).1 q hq

/-- Every value stored in the grouping fold's result is one of the incoming
result lists (or came from the starting dict). -/
theorem mem_foldl_build (results : List (List Article)) :
    ∀ (d : List (String × List Article)) (p : String × List Article),
      p ∈ results.foldl (fun news_by_source source_news =>
        match source_news with
        | [] => news_by_source
        | article :: _ => dictInsert news_by_source article.source source_news) d →
      p ∈ d ∨ p.2 ∈ results := by
  induction results with
  | nil =>
    intro d p h
    left
    simpa using h
  | cons l ls ih =>
    intro d p h
    simp only [List.foldl_cons] at h
    cases l with
    | nil =>
      rcases ih d p h with h | h
      · left; exact h
      · right; exact List.mem_cons_of_mem _ h
    | cons article rest =>
      rcases ih (dictInsert d article.source (article :: rest)) p h with h | h
      · rcases mem_dictInsert h with h | h
        · left; exact h
        · right
          rw [h]
          exact List.mem_cons_self _ _
      · right
        exact List.mem_cons_of_mem _ h

/-- The key stored for a grouped result is the source label of one of its
articles (its head). -/
theorem headKey_key_src {l : List Article} {p : String × List Article}
    (h : headKey l = some p) : ∃ a ∈ l, p.1 = a.source := by
  cases l with
  | nil => simp [headKey] at h
  | cons a rest =>
    refine ⟨a, List.mem_cons_self _ _, ?_⟩
    have he : (a.source, a :: rest) = p := Option.some.inj h
    rw [← he]

/-! ## C9: the per-source mapping -/

/-- C9.  For every aggregator, environment and budget, the mapping built
before the merge has exactly one entry per non-empty adapter result, in
result order, keyed by the source label of the result's first article and
holding the full result list; empty results contribute nothing.  (The four
adapters' label families are pairwise disjoint, so the dict insertions never
overwrite.) -/
theorem grouping_one_entry_per_nonempty_result :
    ∀ (agg : NewsAggregator) (env : NetEnv) (n : Nat),
      buildNewsBySource (fetchResults agg env n)
        = (fetchResults agg env n).filterMap headKey := by
  intro agg env n
  have hpw : ((fetchResults agg env n).filterMap headKey).Pairwise (fun p q => p.1 ≠ q.1) := by
    rw [List.pairwise_filterMap]
    simp only [fetchResults]
    refine List.pairwise_cons.2 ⟨?_, List.pairwise_cons.2 ⟨?_, List.pairwise_cons.2 ⟨?_, by simp⟩⟩⟩
    · intro l' hl' b hb b' hb'
      rw [Option.mem_def] at hb hb'
      rcases headKey_key_src hb with ⟨a1, ha1, hk1⟩
      rcases source_of_mem_newsapi ha1 with ⟨s, hs1⟩
      rcases List.mem_cons.1 hl' with rfl | hl'
      · rcases headKey_key_src hb' with ⟨a2, ha2, hk2⟩
        rw [hk1, hk2, hs1, source_of_mem_guardian ha2]
        exact newsapi_label_ne_guardian s
      rcases List.mem_cons.1 hl' with rfl | hl'
      · rcases headKey_key_src hb' with ⟨a2, ha2, hk2⟩
        rw [hk1, hk2, hs1, source_of_mem_bbc ha2]
        exact newsapi_label_ne_bbc s
      rcases List.mem_cons.1 hl' with rfl | hl'
      · rcases headKey_key_src hb' with ⟨a2, ha2, hk2⟩
        rcases source_of_mem_newsdata ha2 with ⟨t, hs2⟩
        rw [hk1, hk2, hs1, hs2]
        exact newsapi_label_ne_newsdata s t
      · simp at hl'
    · intro l' hl' b hb b' hb'
      rw [Option.mem_def] at hb hb'
      rcases headKey_key_src hb with ⟨a1, ha1, hk1⟩
      have hs1 := source_of_mem_guardian ha1
      rcases List.mem_cons.1 hl' with rfl | hl'
      · rcases headKey_key_src hb' with ⟨a2, ha2, hk2⟩
        rw [hk1, hk2, hs1, source_of_mem_bbc ha2]
        decide
      rcases List.mem_cons.1 hl' with rfl | hl'
      · rcases headKey_key_src hb' with ⟨a2, ha2, hk2⟩
        rcases source_of_mem_newsdata ha2 with ⟨t, hs2⟩
        rw [hk1, hk2, hs1, hs2]
        exact (newsdata_label_ne_guardian t).symm
      · simp at hl'
    · intro l' hl' b hb b' hb'
      rw [Option.mem_def] at hb hb'
      rcases headKey_key_src hb with ⟨a1, ha1, hk1⟩
      have hs1 := source_of_mem_bbc ha1
      rcases List.mem_cons.1 hl' with rfl | hl'
      · rcases headKey_key_src hb' with ⟨a2, ha2, hk2⟩
        rcases source_of_mem_newsdata ha2 with ⟨t, hs2⟩
        rw [hk1, hk2, hs1, hs2]
        exact (newsdata_label_ne_bbc t).symm
      · simp at hl'
  unfold buildNewsBySource
  rw [buildNewsBySource_go (fetchResults agg env n) []
    (fun p hp => absurd hp (List.not_mem_nil p)) hpw]
  simp

/-! ## C10: Reuters is never part of the batch -/

/-- Sorting never adds or removes articles. -/
theorem mem_sortByDateDesc {a : Article} {l : List Article} :
    a ∈ sortByDateDesc l ↔ a ∈ l :=
  List.mem_insertionSort byDateDesc

/-- Every article of the two-pass accumulator belongs to one of the grouped
source lists. -/
theorem mem_mergeAccum {a : Article} {m : List (String × List Article)} {limit : Nat}
    (h : a ∈ mergeAccum m limit) : ∃ p ∈ m, a ∈ p.2 := by
  rw [mergeAccum_eq_two_pass] at h
  rcases List.mem_append.1 h with h | h
  · simp only [specGuaranteePass] at h
    rcases List.mem_flatten.1 h with ⟨l, hl, hal⟩
    rcases List.mem_map.1 hl with ⟨p, hp, rfl⟩
    exact ⟨p, hp, mem_sortByDateDesc.1 (List.mem_of_mem_take hal)⟩
  · simp only [specFillPass] at h
    split at h
    · split at h
      · rcases List.mem_flatten.1 h with ⟨l, hl, hal⟩
        rcases List.mem_map.1 hl with ⟨p, hp, rfl⟩
        exact ⟨p, hp, mem_sortByDateDesc.1 (List.mem_of_mem_drop (List.mem_of_mem_take hal))⟩
      · simp at h
    · simp at h

/-- C10.  `get_latest_news` gathers exactly the NewsAPI, Guardian, BBC and
NewsData tasks: its result does not depend on the Reuters fetch outcome at
all, and no returned article carries the source label `"Reuters"`, whatever
credentials (including a non-empty `reuters_key`) the aggregator holds. -/
theorem reuters_never_invoked :
    ∀ (agg : NewsAggregator) (env : NetEnv) (limit : Int)
      (r r' : FetchOutcome (List RawReutersArticle)),
      get_latest_news agg { env with reuters := r } limit
        = get_latest_news agg { env with reuters := r' } limit
      ∧ (∀ l, get_latest_news agg env limit = some l →
          ∀ a ∈ l, a.source ≠ "Reuters") := by
  intro agg env limit r r'
  constructor
  · rfl
  · intro l hl a ha
    rw [get_latest_news_some_eq hl] at ha
    have ha2 : a ∈ mergeAccum (buildNewsBySource (fetchResults agg env (perSourceLimit limit)))
        (clampLimit limit).toNat :=
      mem_sortByDateDesc.1 (List.mem_of_mem_take ha)
    rcases mem_mergeAccum ha2 with ⟨p, hp, hap⟩
    rcases mem_foldl_build (fetchResults agg env (perSourceLimit limit)) [] p hp with h2 | h2
    · simp at h2
    · simp only [fetchResults, List.mem_cons, List.not_mem_nil, or_false] at h2
      rcases h2 with h2 | h2 | h2 | h2
      · rw [h2] at hap
        rcases source_of_mem_newsapi hap with ⟨s, hs⟩
        rw [hs]
        exact newsapi_label_ne_reuters s
      · rw [h2] at hap
        rw [source_of_mem_guardian hap]
        decide
      · rw [h2] at hap
        rw [source_of_mem_bbc hap]
        decide
      · rw [h2] at hap
        rcases source_of_mem_newsdata hap with ⟨t, ht⟩
        rw [ht]
        exact newsdata_label_ne_reuters t

/-- Witness for C10: in the one-Guardian-article run, the returned article's
label differs from `"Reuters"`, and that run is insensitive to the Reuters
fetch outcome. -/
theorem reuters_never_invoked_witness :
    guardianArticleOne.source ≠ "Reuters" :=
  (reuters_never_invoked aggregator0 envOneGuardian 20 (.ok []) (.error "x")).2
    [guardianArticleOne] (by decide) guardianArticleOne (List.mem_singleton_self _)
